import Mathlib

/-!
Shallow embedding of `plaso/analysis/hash_tagging.py`.

The coordination state of `HashTaggingAnalysisPlugin` is modelled as a record
of two association lists (the Python `collections.defaultdict(list)` indexes
`_event_identifiers_by_path_spec` and `_hash_path_specs`), the work queue
(`hash_queue`, modelled as the list of items put on it) and the
`_analyzer_started` flag.  Path specifications and event identifiers are
opaque hashable values, modelled as natural numbers; hash values and labels
are strings.  Python dictionaries are modelled as association lists with the
usual extensional operations.
-/

namespace HashTagging

/-- Lookup of a key in an association list, modelling `dict.__getitem__`
returning `none` when the key is absent. -/
def alistLookup {α β : Type} [DecidableEq α] (l : List (α × β)) (k : α) : Option β :=
  (l.find? (fun p => decide (p.1 = k))).map Prod.snd

/-- Dictionary read with a default value, modelling `collections.defaultdict`
access (the default is the value produced by the default factory). -/
def alistGetD {α β : Type} [DecidableEq α] (l : List (α × β)) (k : α) (d : β) : β :=
  (alistLookup l k).getD d

/-- Removal of a key from a dictionary, modelling `dict.pop` with the returned
value discarded. -/
def alistErase {α β : Type} [DecidableEq α] (l : List (α × β)) (k : α) : List (α × β) :=
  l.filter (fun p => decide (p.1 ≠ k))

/-- Setting a key to a value, modelling `dict.__setitem__`. -/
def alistSet {α β : Type} [DecidableEq α] (l : List (α × β)) (k : α) (v : β) :
    List (α × β) :=
  alistErase l k ++ [(k, v)]

/-- Appending one element to the list stored under a key, modelling
`defaultdict(list)` access followed by `list.append`. -/
def alistAppend {α β : Type} [DecidableEq α] (l : List (α × List β)) (k : α) (v : β) :
    List (α × List β) :=
  alistSet l k (alistGetD l k [] ++ [v])

theorem alistLookup_nil {α β : Type} [DecidableEq α] (k : α) :
    alistLookup ([] : List (α × β)) k = none := rfl

theorem alistLookup_cons {α β : Type} [DecidableEq α] (p : α × β) (l : List (α × β))
    (k : α) :
    alistLookup (p :: l) k = if p.1 = k then some p.2 else alistLookup l k := by
  by_cases h : p.1 = k <;> simp [alistLookup, List.find?_cons, h]

theorem alistLookup_append {α β : Type} [DecidableEq α] (l₁ l₂ : List (α × β)) (k : α) :
    alistLookup (l₁ ++ l₂) k =
      ((alistLookup l₁ k).or (alistLookup l₂ k)) := by
  induction l₁ with
  | nil => simp [alistLookup_nil]
  | cons p l ih =>
      by_cases h : p.1 = k <;> simp [alistLookup_cons, h, ih]

theorem alistLookup_erase_self {α β : Type} [DecidableEq α] (l : List (α × β)) (k : α) :
    alistLookup (alistErase l k) k = none := by
  induction l with
  | nil => rfl
  | cons p l ih =>
      by_cases h : p.1 = k <;>
        simp [alistErase, List.filter_cons, h, alistLookup_cons, ih] <;>
        simpa [alistErase] using ih

theorem alistLookup_erase_ne {α β : Type} [DecidableEq α] (l : List (α × β))
    (k k' : α) (h : k ≠ k') :
    alistLookup (alistErase l k') k = alistLookup l k := by
  induction l with
  | nil => rfl
  | cons p l ih =>
      by_cases hp : p.1 = k'
      · have hpk : ¬ p.1 = k := fun hk => h (hk ▸ hp)
        have h1 : alistErase (p :: l) k' = alistErase l k' := by
          simp [alistErase, List.filter_cons, hp]
        rw [h1, ih, alistLookup_cons, if_neg hpk]
      · have h1 : alistErase (p :: l) k' = p :: alistErase l k' := by
          simp [alistErase, List.filter_cons, hp]
        rw [h1, alistLookup_cons, alistLookup_cons, ih]

theorem alistLookup_erase_of_none {α β : Type} [DecidableEq α] (l : List (α × β))
    (k k' : α) (h : alistLookup l k = none) :
    alistLookup (alistErase l k') k = none := by
  by_cases hk : k = k'
  · subst hk; exact alistLookup_erase_self l k
  · rw [alistLookup_erase_ne l k k' hk]; exact h

theorem alistLookup_set_self {α β : Type} [DecidableEq α] (l : List (α × β))
    (k : α) (v : β) :
    alistLookup (alistSet l k v) k = some v := by
  simp [alistSet, alistLookup_append, alistLookup_erase_self, alistLookup_cons]

theorem alistLookup_set_ne {α β : Type} [DecidableEq α] (l : List (α × β))
    (k k' : α) (v : β) (h : k ≠ k') :
    alistLookup (alistSet l k' v) k = alistLookup l k := by
  rw [alistSet, alistLookup_append, alistLookup_erase_ne l k k' h, alistLookup_cons,
    if_neg (Ne.symm h), alistLookup_nil]
  cases alistLookup l k <;> rfl

theorem alistGetD_set_self {α β : Type} [DecidableEq α] (l : List (α × β))
    (k : α) (v d : β) :
    alistGetD (alistSet l k v) k d = v := by
  simp [alistGetD, alistLookup_set_self]

theorem alistGetD_set_ne {α β : Type} [DecidableEq α] (l : List (α × β))
    (k k' : α) (v d : β) (h : k ≠ k') :
    alistGetD (alistSet l k' v) k d = alistGetD l k d := by
  simp [alistGetD, alistLookup_set_ne l k k' v h]

/-- Opaque, hashable identifier of a source file (dfvfs path specification).
Path specification objects are always truthy in Python, so optionality is the
only observable distinction. -/
abbrev PathSpec : Type := Nat

/-- Opaque, hashable identifier of one event record, as returned by
`event.GetIdentifier()`. -/
abbrev EventId : Type := Nat

/-- Inputs of one `ExamineEvent` call: the attributes of the event, the event
data and the event data stream that the method reads.  The value of the
configured `<kind>_hash` attribute is recorded for both candidate containers;
`none` models an absent attribute. -/
structure EventInput where
  dataType : String
  hasEventDataStream : Bool
  streamPathSpec : Option PathSpec
  dataPathSpec : Option PathSpec
  eventIdentifier : EventId
  streamHashAttr : Option String
  dataHashAttr : Option String
deriving DecidableEq

/-- Coordination state of a `HashTaggingAnalysisPlugin`:
`_event_identifiers_by_path_spec`, `_hash_path_specs`, the sequence of hashes
put on `hash_queue`, and `_analyzer_started`. -/
structure PluginState where
  eventIdentifiersByPathSpec : List (PathSpec × List EventId)
  hashPathSpecs : List (String × List PathSpec)
  hashQueue : List String
  analyzerStarted : Bool
deriving DecidableEq

/-- State of the plugin right after `__init__`: both indexes empty, nothing
queued, analyzer thread not started. -/
def initialPluginState : PluginState :=
  { eventIdentifiersByPathSpec := []
    hashPathSpecs := []
    hashQueue := []
    analyzerStarted := false }

/-- Resolution of the path specification in `ExamineEvent`:
`getattr(event_data_stream, 'path_spec', None)` with a fallback to
`getattr(event_data, 'pathspec', None)` when the former is falsy. -/
def resolvedPathSpec (e : EventInput) : Option PathSpec :=
  match (if e.hasEventDataStream then e.streamPathSpec else none) with
  | some ps => some ps
  | none => e.dataPathSpec

/-- Resolution of the lookup-hash attribute in `ExamineEvent`: the
`<kind>_hash` attribute is read from the event data stream when one is
present, otherwise from the event data; a missing attribute and a falsy
(empty) string both fail the `if not lookup_hash` check. -/
def resolvedHashAttr (e : EventInput) : Option String :=
  match (if e.hasEventDataStream then e.streamHashAttr else e.dataHashAttr) with
  | some h => if h.isEmpty then none else some h
  | none => none

/-- One `ExamineEvent(mediator, event, event_data, event_data_stream)` call of
`HashTaggingAnalysisPlugin`, as a state transformer.  `dataTypes` is the
class attribute `DATA_TYPES` and `lookupHash` the analyzer's `lookup_hash`
(the empty string models a falsy value). -/
def ExamineEvent (dataTypes : List String) (lookupHash : String)
    (s : PluginState) (e : EventInput) : PluginState :=
  if !(dataTypes.contains e.dataType) || lookupHash.isEmpty then s
  else
    let s1 := { s with analyzerStarted := true }
    match resolvedPathSpec e with
    | none => s1
    | some ps =>
        let newIdx := alistAppend s1.eventIdentifiersByPathSpec ps e.eventIdentifier
        let s2 := { s1 with eventIdentifiersByPathSpec := newIdx }
        match resolvedHashAttr e with
        | none => s2
        | some h =>
            let newSpecs := alistGetD s2.hashPathSpecs h [] ++ [ps]
            let s3 := { s2 with hashPathSpecs := alistSet s2.hashPathSpecs h newSpecs }
            if newSpecs.length = 1 then { s3 with hashQueue := s3.hashQueue ++ [h] }
            else s3

/-- The hash that an `ExamineEvent` call records in `_hash_path_specs` (and
possibly submits), i.e. the value of `lookup_hash` at the point where line
150 of `hash_tagging.py` is reached, `none` when the method returns before
that point. -/
def submittedHash (dataTypes : List String) (lookupHash : String)
    (e : EventInput) : Option String :=
  if !(dataTypes.contains e.dataType) || lookupHash.isEmpty then none
  else
    match resolvedPathSpec e with
    | none => none
    | some _ => resolvedHashAttr e

theorem ExamineEvent_hash_effect_none (dataTypes : List String) (lookupHash : String)
    (s : PluginState) (e : EventInput)
    (h : submittedHash dataTypes lookupHash e = none) :
    (ExamineEvent dataTypes lookupHash s e).hashPathSpecs = s.hashPathSpecs ∧
    (ExamineEvent dataTypes lookupHash s e).hashQueue = s.hashQueue := by
  by_cases hd : e.dataType ∈ dataTypes
  · by_cases hl : lookupHash.isEmpty
    · simp [ExamineEvent, hd, hl]
    · cases hps : resolvedPathSpec e with
      | none => simp [ExamineEvent, hd, hl, hps]
      | some ps =>
          cases hha : resolvedHashAttr e with
          | none => simp [ExamineEvent, hd, hl, hps, hha]
          | some hv => simp [submittedHash, hd, hl, hps, hha] at h
  · simp [ExamineEvent, hd]

theorem ExamineEvent_hash_effect_some (dataTypes : List String) (lookupHash : String)
    (s : PluginState) (e : EventInput) (hv : String)
    (h : submittedHash dataTypes lookupHash e = some hv) :
    ∃ ps, resolvedPathSpec e = some ps ∧
      (ExamineEvent dataTypes lookupHash s e).hashPathSpecs =
        alistSet s.hashPathSpecs hv (alistGetD s.hashPathSpecs hv [] ++ [ps]) ∧
      (ExamineEvent dataTypes lookupHash s e).hashQueue =
        s.hashQueue ++ (if alistGetD s.hashPathSpecs hv [] = [] then [hv] else []) := by
  by_cases hd : e.dataType ∈ dataTypes
  · by_cases hl : lookupHash.isEmpty
    · simp [submittedHash, hd, hl] at h
    · cases hps : resolvedPathSpec e with
      | none => simp [submittedHash, hd, hl, hps] at h
      | some ps =>
          cases hha : resolvedHashAttr e with
          | none => simp [submittedHash, hd, hl, hps, hha] at h
          | some hv' =>
              have hvv : hv' = hv := by simpa [submittedHash, hd, hl, hps, hha] using h
              subst hvv
              refine ⟨ps, rfl, ?_⟩
              by_cases hle : alistGetD s.hashPathSpecs hv' [] = []
              · simp [ExamineEvent, hd, hl, hps, hha, hle]
              · have hlen : ¬ (alistGetD s.hashPathSpecs hv' [] ++ [ps]).length = 1 := by
                  cases hll : alistGetD s.hashPathSpecs hv' [] with
                  | nil => exact absurd hll hle
                  | cons a l => simp
                simp [ExamineEvent, hd, hl, hps, hha, hle, hlen]
  · simp [submittedHash, hd] at h

/-- Deduplication invariant: the number of occurrences of a hash on the work
queue is 0 when `_hash_path_specs` has no path specification recorded for it
and 1 otherwise. -/
def dedupInv (hv : String) (s : PluginState) : Prop :=
  List.count hv s.hashQueue = if alistGetD s.hashPathSpecs hv [] = [] then 0 else 1

theorem dedupInv_step (dataTypes : List String) (lookupHash : String) (hv : String)
    (s : PluginState) (e : EventInput) (hI : dedupInv hv s) :
    dedupInv hv (ExamineEvent dataTypes lookupHash s e) := by
  cases hsub : submittedHash dataTypes lookupHash e with
  | none =>
      obtain ⟨h1, h2⟩ := ExamineEvent_hash_effect_none dataTypes lookupHash s e hsub
      unfold dedupInv; rw [h1, h2]; exact hI
  | some hv' =>
      obtain ⟨ps, _, h1, h2⟩ :=
        ExamineEvent_hash_effect_some dataTypes lookupHash s e hv' hsub
      by_cases he : hv' = hv
      · subst he
        unfold dedupInv at hI ⊢
        rw [h1, h2, alistGetD_set_self]
        by_cases hl : alistGetD s.hashPathSpecs hv' [] = []
        · rw [hl] at hI ⊢
          simp at hI
          simp [List.count_append, hI]
        · rw [if_neg hl] at hI
          simp [List.count_append, hl, hI]
      · unfold dedupInv at hI ⊢
        rw [h1, h2, alistGetD_set_ne _ _ _ _ _ (fun hk => he hk.symm)]
        have hcount : List.count hv (s.hashQueue ++
            (if alistGetD s.hashPathSpecs hv' [] = [] then [hv'] else [])) =
            List.count hv s.hashQueue := by
          by_cases hl : alistGetD s.hashPathSpecs hv' [] = [] <;>
            simp [hl, List.count_append, List.count_cons, he]
        rw [hcount]; exact hI

theorem dedupInv_foldl (dataTypes : List String) (lookupHash : String) (hv : String)
    (es : List EventInput) (s : PluginState) (hI : dedupInv hv s) :
    dedupInv hv (List.foldl (ExamineEvent dataTypes lookupHash) s es) := by
  induction es generalizing s with
  | nil => exact hI
  | cons e es ih =>
      exact ih _ (dedupInv_step dataTypes lookupHash hv s e hI)

theorem hashEntry_mono_step (dataTypes : List String) (lookupHash : String)
    (hv : String) (s : PluginState) (e : EventInput)
    (h : alistGetD s.hashPathSpecs hv [] ≠ []) :
    alistGetD (ExamineEvent dataTypes lookupHash s e).hashPathSpecs hv [] ≠ [] := by
  cases hsub : submittedHash dataTypes lookupHash e with
  | none =>
      rw [(ExamineEvent_hash_effect_none dataTypes lookupHash s e hsub).1]; exact h
  | some hv' =>
      obtain ⟨ps, _, h1, _⟩ :=
        ExamineEvent_hash_effect_some dataTypes lookupHash s e hv' hsub
      rw [h1]
      by_cases he : hv' = hv
      · subst he; rw [alistGetD_set_self]; simp
      · rw [alistGetD_set_ne _ _ _ _ _ (fun hk => he hk.symm)]; exact h

theorem hashEntry_mono_foldl (dataTypes : List String) (lookupHash : String)
    (hv : String) (es : List EventInput) (s : PluginState)
    (h : alistGetD s.hashPathSpecs hv [] ≠ []) :
    alistGetD (List.foldl (ExamineEvent dataTypes lookupHash) s es).hashPathSpecs hv []
      ≠ [] := by
  induction es generalizing s with
  | nil => exact h
  | cons e es ih =>
      exact ih _ (hashEntry_mono_step dataTypes lookupHash hv s e h)

theorem hashEntry_nonempty_foldl (dataTypes : List String) (lookupHash : String)
    (hv : String) (es : List EventInput) (s : PluginState)
    (h : ∃ e ∈ es, submittedHash dataTypes lookupHash e = some hv) :
    alistGetD (List.foldl (ExamineEvent dataTypes lookupHash) s es).hashPathSpecs hv []
      ≠ [] := by
  induction es generalizing s with
  | nil => simp at h
  | cons e es ih =>
      rcases h with ⟨w, hw, hsub⟩
      rcases List.mem_cons.mp hw with hwe | hwe
      · subst hwe
        obtain ⟨ps, _, h1, _⟩ :=
          ExamineEvent_hash_effect_some dataTypes lookupHash s w hv hsub
        have hne : alistGetD (ExamineEvent dataTypes lookupHash s w).hashPathSpecs
            hv [] ≠ [] := by
          rw [h1, alistGetD_set_self]; simp
        simpa only [List.foldl_cons] using
          hashEntry_mono_foldl dataTypes lookupHash hv es _ hne
      · exact ih _ ⟨w, hwe, hsub⟩

/-- C1: starting from a state in which hash `hv` has no recorded path
specification and does not occur on the work queue (in particular from the
initial state), any sequence of `ExamineEvent` calls, at least one of which
records `hv` (and with no intervening result handling), leaves exactly one
task for `hv` on the work queue — independently of how many events, how many
distinct path specifications, and in which order. -/
theorem C1_hash_task_deduplication (dataTypes : List String) (lookupHash : String)
    (hv : String) (es : List EventInput) (s : PluginState)
    (h0 : alistGetD s.hashPathSpecs hv [] = [])
    (h1 : List.count hv s.hashQueue = 0)
    (h2 : ∃ e ∈ es, submittedHash dataTypes lookupHash e = some hv) :
    List.count hv (List.foldl (ExamineEvent dataTypes lookupHash) s es).hashQueue
      = 1 := by
  have hI : dedupInv hv s := by unfold dedupInv; rw [h0, if_pos rfl]; exact h1
  have hF := dedupInv_foldl dataTypes lookupHash hv es s hI
  have hNE := hashEntry_nonempty_foldl dataTypes lookupHash hv es s h2
  unfold dedupInv at hF
  rw [if_neg hNE] at hF
  exact hF

theorem alistGetD_append_self {α β : Type} [DecidableEq α] (l : List (α × List β))
    (k : α) (v : β) :
    alistGetD (alistAppend l k v) k [] = alistGetD l k [] ++ [v] := by
  simp [alistAppend, alistGetD_set_self]

/-- C9: when an event of a supported data type resolves a path specification
but the configured hash attribute is absent, `ExamineEvent` has already
appended the event identifier to `_event_identifiers_by_path_spec` and does
not roll that entry back: the method returns with the event-identifier entry
grown while `_hash_path_specs` and the work queue are unchanged. -/
theorem C9_event_index_grows_without_hash (dataTypes : List String)
    (lookupHash : String) (s : PluginState) (e : EventInput) (ps : PathSpec)
    (hd : e.dataType ∈ dataTypes) (hl : lookupHash.isEmpty = false)
    (hps : resolvedPathSpec e = some ps) (hha : resolvedHashAttr e = none) :
    alistGetD (ExamineEvent dataTypes lookupHash s e).eventIdentifiersByPathSpec ps []
      = alistGetD s.eventIdentifiersByPathSpec ps [] ++ [e.eventIdentifier] ∧
    (ExamineEvent dataTypes lookupHash s e).hashPathSpecs = s.hashPathSpecs ∧
    (ExamineEvent dataTypes lookupHash s e).hashQueue = s.hashQueue := by
  simp [ExamineEvent, hd, hl, hps, hha, alistGetD_append_self]

/-- Sample `DATA_TYPES` used by concrete witnesses. -/
def sampleDataTypes : List String := ["windows:prefetch:execution"]

/-- Sample event: path specification 1, identifier 10, sha256 hash attribute
present on the event data stream. -/
def sampleEventA : EventInput :=
  { dataType := "windows:prefetch:execution"
    hasEventDataStream := true
    streamPathSpec := some 1
    dataPathSpec := none
    eventIdentifier := 10
    streamHashAttr := some "abc123"
    dataHashAttr := none }

/-- Sample event: a second path specification with the same hash value. -/
def sampleEventB : EventInput :=
  { dataType := "windows:prefetch:execution"
    hasEventDataStream := true
    streamPathSpec := some 2
    dataPathSpec := none
    eventIdentifier := 11
    streamHashAttr := some "abc123"
    dataHashAttr := none }

/-- Sample event: the first path specification again, same hash value. -/
def sampleEventC : EventInput :=
  { dataType := "windows:prefetch:execution"
    hasEventDataStream := true
    streamPathSpec := some 1
    dataPathSpec := none
    eventIdentifier := 12
    streamHashAttr := some "abc123"
    dataHashAttr := none }

/-- Sample event: supported data type and resolvable path specification but
no hash attribute on either container. -/
def sampleEventNoHash : EventInput :=
  { dataType := "windows:prefetch:execution"
    hasEventDataStream := true
    streamPathSpec := some 7
    dataPathSpec := none
    eventIdentifier := 13
    streamHashAttr := none
    dataHashAttr := none }

/-- Witness for C1: three events over two distinct path specifications, all
with hash "abc123", put exactly one task on the work queue. -/
theorem C1_hash_task_deduplication_witness :
    alistGetD initialPluginState.hashPathSpecs "abc123" [] = [] ∧
    List.count "abc123" initialPluginState.hashQueue = 0 ∧
    (∃ e ∈ [sampleEventA, sampleEventB, sampleEventC],
        submittedHash sampleDataTypes "sha256" e = some "abc123") ∧
    List.count "abc123" (List.foldl (ExamineEvent sampleDataTypes "sha256")
        initialPluginState [sampleEventA, sampleEventB, sampleEventC]).hashQueue = 1 :=
  ⟨by decide, by decide, by decide,
    C1_hash_task_deduplication sampleDataTypes "sha256" "abc123"
      [sampleEventA, sampleEventB, sampleEventC] initialPluginState
      (by decide) (by decide) (by decide)⟩

/-- Witness for C9: an event without the configured hash attribute grows the
event-identifier index but leaves the hash index and the work queue alone. -/
theorem C9_event_index_grows_without_hash_witness :
    sampleEventNoHash.dataType ∈ sampleDataTypes ∧
    ("sha256" : String).isEmpty = false ∧
    resolvedPathSpec sampleEventNoHash = some 7 ∧
    resolvedHashAttr sampleEventNoHash = none ∧
    (alistGetD (ExamineEvent sampleDataTypes "sha256" initialPluginState
        sampleEventNoHash).eventIdentifiersByPathSpec 7 []
      = alistGetD initialPluginState.eventIdentifiersByPathSpec 7 [] ++ [13] ∧
    (ExamineEvent sampleDataTypes "sha256" initialPluginState
        sampleEventNoHash).hashPathSpecs = initialPluginState.hashPathSpecs ∧
    (ExamineEvent sampleDataTypes "sha256" initialPluginState
        sampleEventNoHash).hashQueue = initialPluginState.hashQueue) :=
  ⟨by decide, by decide, by decide, by decide,
    C9_event_index_grows_without_hash sampleDataTypes "sha256" initialPluginState
      sampleEventNoHash 7 (by decide) (by decide) (by decide) (by decide)⟩

/-- Analysis information about a hash, class `HashAnalysis` of the source:
the hash that was looked up paired with opaque information about it
(modelled as a natural number). -/
structure HashAnalysis where
  subjectHash : String
  hashInformation : Nat
deriving DecidableEq

/-- Event tag handed to the mediator: the event identifier set with
`SetEventIdentifier` and the labels added with `AddLabels`. -/
structure EventTag where
  eventIdentifier : EventId
  labels : List String
deriving DecidableEq

/-- One iteration of the `for path_specification in path_specifications` loop
of `_HandleHashAnalysis`: pop the event identifiers recorded for the path
specification (default `[]`), then — unless the label list is empty — build
one event tag per recovered identifier.  `tagOk` tells whether tag
construction succeeds for an identifier; a failing construction is logged
and that single tag is skipped. -/
def handleStep (labels : List String) (tagOk : EventId → List String → Bool)
    (acc : List (PathSpec × List EventId) × List EventTag) (ps : PathSpec) :
    List (PathSpec × List EventId) × List EventTag :=
  let eventIdentifiers := alistGetD acc.1 ps []
  let rest := alistErase acc.1 ps
  if labels.isEmpty then (rest, acc.2)
  else
    (rest, acc.2 ++ eventIdentifiers.filterMap (fun eid =>
      if tagOk eid labels then some { eventIdentifier := eid, labels := labels }
      else none))

/-- Method `_HandleHashAnalysis(hash_analysis)`: generate labels for the hash,
pop the hash's path specifications from `_hash_path_specs` (`none` models the
`KeyError` raised when the hash is absent), pop each path specification's
event identifiers and produce the tags.  Returns the new state together with
the popped path specifications, the labels and the tags, mirroring the
method's return tuple.  `tagOk` is modelled from the spec: `EventTag`
construction lives in `plaso.containers.events`, outside this excerpt, and
may raise `TypeError`/`ValueError` for a malformed identifier or label
list. -/
def HandleHashAnalysis (generateLabels : Nat → List String)
    (tagOk : EventId → List String → Bool) (s : PluginState) (ha : HashAnalysis) :
    Option (PluginState × List PathSpec × List String × List EventTag) :=
  match alistLookup s.hashPathSpecs ha.subjectHash with
  | none => none
  | some pathSpecifications =>
      let labels := generateLabels ha.hashInformation
      let hashRest := alistErase s.hashPathSpecs ha.subjectHash
      let result := pathSpecifications.foldl (handleStep labels tagOk)
        (s.eventIdentifiersByPathSpec, [])
      some ({ s with hashPathSpecs := hashRest
                     eventIdentifiersByPathSpec := result.1 },
        pathSpecifications, labels, result.2)

theorem handleStep_fst (labels : List String) (tagOk : EventId → List String → Bool)
    (acc : List (PathSpec × List EventId) × List EventTag) (ps : PathSpec) :
    (handleStep labels tagOk acc ps).1 = alistErase acc.1 ps := by
  unfold handleStep
  split <;> rfl

theorem handle_fold_preserves_none (labels : List String)
    (tagOk : EventId → List String → Bool) (pss : List PathSpec)
    (acc : List (PathSpec × List EventId) × List EventTag) (ps : PathSpec)
    (h : alistLookup acc.1 ps = none) :
    alistLookup (pss.foldl (handleStep labels tagOk) acc).1 ps = none := by
  induction pss generalizing acc with
  | nil => exact h
  | cons p rest ih =>
      refine ih _ ?_
      rw [handleStep_fst]
      exact alistLookup_erase_of_none _ _ _ h

theorem handle_fold_lookup_none (labels : List String)
    (tagOk : EventId → List String → Bool) (pss : List PathSpec)
    (acc : List (PathSpec × List EventId) × List EventTag) (ps : PathSpec)
    (hps : ps ∈ pss) :
    alistLookup (pss.foldl (handleStep labels tagOk) acc).1 ps = none := by
  induction pss generalizing acc with
  | nil => simp at hps
  | cons p rest ih =>
      rcases List.mem_cons.mp hps with hpe | hpe
      · subst hpe
        refine handle_fold_preserves_none labels tagOk rest _ ps ?_
        rw [handleStep_fst]
        exact alistLookup_erase_self _ _
      · exact ih _ hpe

theorem HandleHashAnalysis_inversion (generateLabels : Nat → List String)
    (tagOk : EventId → List String → Bool) (s : PluginState) (ha : HashAnalysis)
    (s' : PluginState) (pathSpecs : List PathSpec) (labels : List String)
    (tags : List EventTag)
    (h : HandleHashAnalysis generateLabels tagOk s ha =
      some (s', pathSpecs, labels, tags)) :
    alistLookup s.hashPathSpecs ha.subjectHash = some pathSpecs ∧
    labels = generateLabels ha.hashInformation ∧
    s'.hashPathSpecs = alistErase s.hashPathSpecs ha.subjectHash ∧
    s'.eventIdentifiersByPathSpec =
      (pathSpecs.foldl (handleStep labels tagOk) (s.eventIdentifiersByPathSpec, [])).1 ∧
    tags =
      (pathSpecs.foldl (handleStep labels tagOk) (s.eventIdentifiersByPathSpec, [])).2 ∧
    s'.hashQueue = s.hashQueue := by
  cases hlk : alistLookup s.hashPathSpecs ha.subjectHash with
  | none => simp [HandleHashAnalysis, hlk] at h
  | some pss =>
      simp only [HandleHashAnalysis, hlk, Option.some.injEq] at h
      have hs := congrArg Prod.fst h
      have hps := congrArg (fun r => r.2.1) h
      have hlbl := congrArg (fun r => r.2.2.1) h
      have htag := congrArg (fun r => r.2.2.2) h
      simp only at hs hps hlbl htag
      subst hps
      subst hlbl
      subst htag
      subst hs
      exact ⟨rfl, rfl, rfl, rfl, rfl, rfl⟩

/-- C2: after `_HandleHashAnalysis` handles a result for a hash, that hash is
absent from `_hash_path_specs` and every path specification that was
recorded under it is absent from `_event_identifiers_by_path_spec`. -/
theorem C2_index_eviction (generateLabels : Nat → List String)
    (tagOk : EventId → List String → Bool) (s : PluginState) (ha : HashAnalysis)
    (s' : PluginState) (pathSpecs : List PathSpec) (labels : List String)
    (tags : List EventTag)
    (h : HandleHashAnalysis generateLabels tagOk s ha =
      some (s', pathSpecs, labels, tags)) :
    alistLookup s'.hashPathSpecs ha.subjectHash = none ∧
    ∀ ps ∈ pathSpecs, alistLookup s'.eventIdentifiersByPathSpec ps = none := by
  obtain ⟨_, _, h3, h4, _, _⟩ :=
    HandleHashAnalysis_inversion generateLabels tagOk s ha s' pathSpecs labels tags h
  constructor
  · rw [h3]; exact alistLookup_erase_self _ _
  · intro ps hps
    rw [h4]
    exact handle_fold_lookup_none _ _ _ _ _ hps

theorem handle_fold_snd_nil_labels (tagOk : EventId → List String → Bool)
    (pss : List PathSpec) (acc : List (PathSpec × List EventId) × List EventTag) :
    (pss.foldl (handleStep [] tagOk) acc).2 = acc.2 := by
  induction pss generalizing acc with
  | nil => rfl
  | cons p rest ih =>
      rw [List.foldl_cons]
      rw [ih]
      rfl

/-- C3: when the label generator yields no labels for a hash, handling that
hash's result produces no event tag, yet the hash is still removed from
`_hash_path_specs` and every path specification under it from
`_event_identifiers_by_path_spec`. -/
theorem C3_empty_labels_no_tags_still_evicts (generateLabels : Nat → List String)
    (tagOk : EventId → List String → Bool) (s : PluginState) (ha : HashAnalysis)
    (s' : PluginState) (pathSpecs : List PathSpec) (labels : List String)
    (tags : List EventTag)
    (hgl : generateLabels ha.hashInformation = [])
    (h : HandleHashAnalysis generateLabels tagOk s ha =
      some (s', pathSpecs, labels, tags)) :
    tags = [] ∧
    alistLookup s'.hashPathSpecs ha.subjectHash = none ∧
    ∀ ps ∈ pathSpecs, alistLookup s'.eventIdentifiersByPathSpec ps = none := by
  obtain ⟨_, h2, h3, h4, h5, _⟩ :=
    HandleHashAnalysis_inversion generateLabels tagOk s ha s' pathSpecs labels tags h
  have hlbl : labels = [] := h2.trans hgl
  subst hlbl
  refine ⟨?_, ?_, ?_⟩
  · rw [h5, handle_fold_snd_nil_labels]
  · rw [h3]; exact alistLookup_erase_self _ _
  · intro ps hps
    rw [h4]
    exact handle_fold_lookup_none _ _ _ _ _ hps

/-- Counter update of `CompileReport` (lines 213-214): for every generated
label, the per-label count of path specifications grows by the number of
path specifications popped for the handled hash. -/
def updateLabelCounter (counter : List (String × Nat)) (labels : List String)
    (n : Nat) : List (String × Nat) :=
  labels.foldl (fun c label => alistSet c label (alistGetD c label 0 + n)) counter

theorem updateLabelCounter_not_mem (counter : List (String × Nat))
    (labels : List String) (n : Nat) (label : String) (h : label ∉ labels) :
    alistGetD (updateLabelCounter counter labels n) label 0 =
      alistGetD counter label 0 := by
  induction labels generalizing counter with
  | nil => rfl
  | cons l ls ih =>
      have hne : label ≠ l := fun he => h (he ▸ List.mem_cons_self l ls)
      have hnm : label ∉ ls := fun hm => h (List.mem_cons_of_mem _ hm)
      rw [updateLabelCounter, List.foldl_cons]
      have hih := ih (alistSet counter l (alistGetD counter l 0 + n)) hnm
      rw [updateLabelCounter] at hih
      rw [hih, alistGetD_set_ne _ _ _ _ _ hne]

theorem updateLabelCounter_mem (counter : List (String × Nat))
    (labels : List String) (n : Nat) (label : String) (hmem : label ∈ labels)
    (hnd : labels.Nodup) :
    alistGetD (updateLabelCounter counter labels n) label 0 =
      alistGetD counter label 0 + n := by
  induction labels generalizing counter with
  | nil => simp at hmem
  | cons l ls ih =>
      obtain ⟨hnotin, hndtail⟩ := List.nodup_cons.mp hnd
      rw [updateLabelCounter, List.foldl_cons]
      rcases List.mem_cons.mp hmem with he | hm
      · subst he
        have h0 := updateLabelCounter_not_mem
          (alistSet counter label (alistGetD counter label 0 + n)) ls n label hnotin
        rw [updateLabelCounter] at h0
        rw [h0, alistGetD_set_self]
      · have hne : label ≠ l := fun he => hnotin (he ▸ hm)
        have hih := ih (alistSet counter l (alistGetD counter l 0 + n)) hm hndtail
        rw [updateLabelCounter] at hih
        rw [hih, alistGetD_set_ne _ _ _ _ _ hne]

/-- Demo state for concrete result-handling scenarios: hash "h" has two
recorded path specifications; path specification 1 has no recorded event
identifiers, path specification 2 has the single event identifier 5. -/
def demoState : PluginState :=
  { eventIdentifiersByPathSpec := [(2, [5])]
    hashPathSpecs := [("h", [1, 2])]
    hashQueue := ["h"]
    analyzerStarted := true }

/-- Demo state after handling the result for hash "h": both indexes evicted. -/
def demoStateAfter : PluginState :=
  { eventIdentifiersByPathSpec := []
    hashPathSpecs := []
    hashQueue := ["h"]
    analyzerStarted := true }

/-- Demo hash analysis result for hash "h". -/
def demoHashAnalysis : HashAnalysis :=
  { subjectHash := "h", hashInformation := 0 }

/-- Demo label generator returning one label for every hash. -/
def demoGenerateLabels : Nat → List String := fun _ => ["bad"]

/-- Demo label generator returning the label "known-good" for every hash. -/
def demoGoodLabels : Nat → List String := fun _ => ["known-good"]

/-- Demo label generator returning no labels. -/
def demoEmptyLabels : Nat → List String := fun _ => []

/-- Demo tag construction that always succeeds. -/
def demoTagSucceeds : EventId → List String → Bool := fun _ _ => true

/-- Demo tag construction that always fails, modelling `AddLabels` raising
for every identifier. -/
def demoTagFails : EventId → List String → Bool := fun _ _ => false

/-- C10: for a handled hash result with a non-empty, duplicate-free label
list, the per-label counter used for the report grows by the full number of
popped path specifications — independent of how many event tags were
produced.  Concretely, a hash with two path specifications, one without
recorded events and one whose only tag construction fails, is counted as 2
path specifications for its label while zero tags are produced. -/
theorem C10_label_counter_counts_all_popped (generateLabels : Nat → List String)
    (tagOk : EventId → List String → Bool) (counter : List (String × Nat))
    (s : PluginState) (ha : HashAnalysis) (s' : PluginState)
    (pathSpecs : List PathSpec) (labels : List String) (tags : List EventTag)
    (h : HandleHashAnalysis generateLabels tagOk s ha =
      some (s', pathSpecs, labels, tags))
    (hnd : labels.Nodup) :
    (∀ label ∈ labels,
      alistGetD (updateLabelCounter counter labels pathSpecs.length) label 0 =
        alistGetD counter label 0 + pathSpecs.length) ∧
    (HandleHashAnalysis demoGenerateLabels demoTagFails demoState demoHashAnalysis =
        some (demoStateAfter, [1, 2], ["bad"], []) ∧
      alistGetD (updateLabelCounter [] ["bad"] 2) "bad" 0 = 2) := by
  refine ⟨?_, by decide, by decide⟩
  intro label hmem
  exact updateLabelCounter_mem counter labels pathSpecs.length label hmem hnd

/-- Witness for C2 at a concrete input: handling the result for hash "h"
evicts "h" from the hash index and path specifications 1 and 2 from the
event-identifier index. -/
theorem C2_index_eviction_witness :
    HandleHashAnalysis demoGoodLabels demoTagSucceeds demoState demoHashAnalysis =
      some (demoStateAfter, [1, 2], ["known-good"],
        [{ eventIdentifier := 5, labels := ["known-good"] }]) ∧
    (alistLookup demoStateAfter.hashPathSpecs demoHashAnalysis.subjectHash = none ∧
      ∀ ps ∈ [1, 2],
        alistLookup demoStateAfter.eventIdentifiersByPathSpec ps = none) :=
  ⟨by decide,
    C2_index_eviction demoGoodLabels demoTagSucceeds demoState demoHashAnalysis
      demoStateAfter [1, 2] ["known-good"]
      [{ eventIdentifier := 5, labels := ["known-good"] }] (by decide)⟩

/-- Witness for C3 at a concrete input: a label generator yielding no labels
produces no tags but still evicts both indexes. -/
theorem C3_empty_labels_no_tags_still_evicts_witness :
    demoEmptyLabels demoHashAnalysis.hashInformation = [] ∧
    HandleHashAnalysis demoEmptyLabels demoTagSucceeds demoState demoHashAnalysis =
      some (demoStateAfter, [1, 2], [], []) ∧
    (([] : List EventTag) = [] ∧
      alistLookup demoStateAfter.hashPathSpecs demoHashAnalysis.subjectHash = none ∧
      ∀ ps ∈ [1, 2],
        alistLookup demoStateAfter.eventIdentifiersByPathSpec ps = none) :=
  ⟨by decide, by decide,
    C3_empty_labels_no_tags_still_evicts demoEmptyLabels demoTagSucceeds demoState
      demoHashAnalysis demoStateAfter [1, 2] [] [] (by decide) (by decide)⟩

/-- Witness for C10 at a concrete input: the single label "bad" is counted
with the full number of popped path specifications. -/
theorem C10_label_counter_counts_all_popped_witness :
    HandleHashAnalysis demoGenerateLabels demoTagFails demoState demoHashAnalysis =
      some (demoStateAfter, [1, 2], ["bad"], []) ∧
    List.Nodup ["bad"] ∧
    ((∀ label ∈ ["bad"],
      alistGetD (updateLabelCounter [] ["bad"] (List.length [1, 2])) label 0 =
        alistGetD ([] : List (String × Nat)) label 0 + List.length [1, 2]) ∧
    (HandleHashAnalysis demoGenerateLabels demoTagFails demoState demoHashAnalysis =
        some (demoStateAfter, [1, 2], ["bad"], []) ∧
      alistGetD (updateLabelCounter [] ["bad"] 2) "bad" 0 = 2)) :=
  ⟨by decide, by decide,
    C10_label_counter_counts_all_popped demoGenerateLabels demoTagFails []
      demoState demoHashAnalysis demoStateAfter [1, 2] ["bad"] []
      (by decide) (by decide)⟩

/-- Loop guard `_ContinueReportCompilation()` of the drain loop in
`CompileReport`: `analyzer_alive = self._analyzer.is_alive()` (a thread that
was never started is not alive), `unfinishedTasks =
self.hash_queue.unfinished_tasks`, `analysisQueueEmpty =
self.hash_analysis_queue.empty()`. -/
def ContinueReportCompilation (analyzerAlive : Bool) (unfinishedTasks : Nat)
    (analysisQueueEmpty : Bool) : Bool :=
  (analyzerAlive && decide (unfinishedTasks > 0)) || !analysisQueueEmpty

/-- C4: the drain loop of `CompileReport` runs another iteration iff (the
analyzer thread is alive and the work queue has unfinished tasks) or the
result queue is non-empty; in particular, when no worker was ever started
(so the thread is not alive) and the result queue is empty, the guard is
false and the `while` body does not run at all. -/
theorem C4_continue_guard_iff :
    (∀ (analyzerAlive : Bool) (unfinishedTasks : Nat) (analysisQueueEmpty : Bool),
      ContinueReportCompilation analyzerAlive unfinishedTasks analysisQueueEmpty
          = true ↔
        ((analyzerAlive = true ∧ 0 < unfinishedTasks) ∨ analysisQueueEmpty = false)) ∧
    (∀ unfinishedTasks : Nat,
      ContinueReportCompilation false unfinishedTasks true = false) := by
  constructor
  · intro a u e
    cases a <;> cases e <;> simp [ContinueReportCompilation]
  · intro u
    simp [ContinueReportCompilation]

/-- Witness for C4 at a concrete input: a never-started worker and an empty
result queue do not continue the loop. -/
theorem C4_continue_guard_iff_witness :
    ContinueReportCompilation false 5 true = false :=
  C4_continue_guard_iff.2 5

/-- Method `EstimateTimeRemaining()`: the queue size, batch size, post-batch
wait, completed-batch count and cumulative analysis seconds are read from
`self.hash_queue` and `self._analyzer`; both `divmod` quotients are floor
divisions. -/
def EstimateTimeRemaining (numberOfHashes hashesPerBatch waitTimePerBatch
    analysesPerformed secondsSpentAnalyzing : Nat) : Nat :=
  let averageAnalysisTime :=
    if analysesPerformed = 0 then secondsSpentAnalyzing
    else secondsSpentAnalyzing / analysesPerformed
  let batchesRemaining := numberOfHashes / hashesPerBatch
  let estimatedSecondsPerBatch := averageAnalysisTime + waitTimePerBatch
  batchesRemaining * estimatedSecondsPerBatch

/-- C5: `EstimateTimeRemaining()` returns
`floor(queued / hashes_per_batch) * (seconds_spent / max(analyses, 1) +
wait_after_analysis)` — the raw spent time standing in for the average when
no batch has completed — and in particular returns 0 whenever the work queue
is empty.  `hashes_per_batch` is a positive integer per the configuration
surface (Python would raise `ZeroDivisionError` at 0). -/
theorem C5_estimate_formula (numberOfHashes hashesPerBatch waitTimePerBatch
    analysesPerformed secondsSpentAnalyzing : Nat)
    (hb : 0 < hashesPerBatch) :
    EstimateTimeRemaining numberOfHashes hashesPerBatch waitTimePerBatch
        analysesPerformed secondsSpentAnalyzing =
      (numberOfHashes / hashesPerBatch) *
        (secondsSpentAnalyzing / max analysesPerformed 1 + waitTimePerBatch) ∧
    (numberOfHashes = 0 →
      EstimateTimeRemaining numberOfHashes hashesPerBatch waitTimePerBatch
        analysesPerformed secondsSpentAnalyzing = 0) := by
  constructor
  · cases analysesPerformed with
    | zero => simp [EstimateTimeRemaining]
    | succ k =>
        have hmax : max (k + 1) 1 = k + 1 :=
          Nat.max_eq_left (Nat.succ_le_succ (Nat.zero_le k))
        simp [EstimateTimeRemaining, hmax]
  · intro h0
    subst h0
    simp [EstimateTimeRemaining, Nat.zero_div]

/-- Witness for C5 at a concrete input. -/
theorem C5_estimate_formula_witness :
    0 < 2 ∧
    (EstimateTimeRemaining 10 2 3 0 7 = (10 / 2) * (7 / max 0 1 + 3) ∧
      ((10 : Nat) = 0 → EstimateTimeRemaining 10 2 3 0 7 = 0)) :=
  ⟨by decide, C5_estimate_formula 10 2 3 0 7 (by decide)⟩

/-- Outcome of the underlying `requests.get`/`requests.post` call: either a
`requests.ConnectionError` carrying the exception's string, or an HTTP
response with a status code, a reason phrase and an (already decoded, opaque)
JSON body. -/
inductive TransportOutcome where
  | connError (excString : String)
  | response (statusCode : Nat) (reason : String) (body : Nat)
deriving DecidableEq

/-- Errors raised by `MakeRequestAndDecodeJSON`: Python `ValueError` for an
invalid method and `plaso.lib.errors.ConnectionError` for normalized
connectivity failures. -/
inductive HelperError where
  | valueError (message : String)
  | connectionError (message : String)
deriving DecidableEq

/-- Modelled from the requests library (an external dependency):
`Response.raise_for_status()` raises `requests.HTTPError` iff
`400 <= status_code < 600`, with a Client Error message for 4xx and a Server
Error message for 5xx; every other status (all 1xx, 2xx, 3xx) does not
raise. -/
def raiseForStatusMessage (statusCode : Nat) (reason url : String) :
    Option String :=
  if 400 ≤ statusCode ∧ statusCode < 500 then
    some (toString statusCode ++ " Client Error: " ++ reason ++ " for url: " ++ url)
  else if 500 ≤ statusCode ∧ statusCode < 600 then
    some (toString statusCode ++ " Server Error: " ++ reason ++ " for url: " ++ url)
  else none

/-- Python's `str.upper()` as used on HTTP method names, modelled
character-wise (Python and this model agree on ASCII strings such as the
method names the check compares against). -/
def strUpper (s : String) : String := String.mk (s.data.map Char.toUpper)

/-- Method `MakeRequestAndDecodeJSON(url, method, **kwargs)` of
`HTTPHashAnalyzer`, with the network transport as a parameter and the
response body modelled as already-decoded JSON.  Mirrors the source:
uppercase the method and reject anything not in `('GET', 'POST')` with a
`ValueError` whose message is the unformatted literal of line 430; perform
the request and `raise_for_status()`; map `requests.ConnectionError` and
`requests.HTTPError` to `errors.ConnectionError` with a message naming the
URL and the original exception; otherwise return the decoded body. -/
def MakeRequestAndDecodeJSON (url method : String) (outcome : TransportOutcome) :
    Except HelperError Nat :=
  if strUpper method ∉ (["GET", "POST"] : List String) then
    Except.error (HelperError.valueError "Method \x7b0:s\x7d is not supported")
  else
    match outcome with
    | TransportOutcome.connError excString =>
        Except.error (HelperError.connectionError
          ("Unable to connect to " ++ url ++ " with error: " ++ excString))
    | TransportOutcome.response statusCode reason body =>
        match raiseForStatusMessage statusCode reason url with
        | some excString =>
            Except.error (HelperError.connectionError
              (url ++ " returned a HTTP error: " ++ excString))
        | none => Except.ok body


/-- Counterexample for C6: a 304 response has a non-2xx status, yet
`raise_for_status()` does not raise for it, so the helper returns the decoded
body instead of normalizing it into a connectivity error. -/
theorem C6_counterexample_304_not_normalized :
    ¬ (200 ≤ 304 ∧ 304 < 300) ∧
    MakeRequestAndDecodeJSON "http://api.example.test" "GET"
      (TransportOutcome.response 304 "Not Modified" 7) = Except.ok 7 := by
  exact ⟨by decide, rfl⟩

/-- C6 (amended): for a valid method, every transport-level connection
failure and every 4xx/5xx status is normalized into the single
connectivity-error kind `errors.ConnectionError`, whose message carries the
target URL and the underlying exception, and this is the only error the
helper raises apart from the invalid-method check (which a valid method
never triggers); a status outside 400-599 — including the non-2xx statuses
1xx and 3xx — returns the decoded body without error. -/
theorem C6_connectivity_error_normalization (url method : String)
    (hm : strUpper method = "GET" ∨ strUpper method = "POST") :
    (∀ excString, MakeRequestAndDecodeJSON url method
        (TransportOutcome.connError excString) =
      Except.error (HelperError.connectionError
        ("Unable to connect to " ++ url ++ " with error: " ++ excString))) ∧
    (∀ statusCode reason body, 400 ≤ statusCode → statusCode < 600 →
      ∃ excString, MakeRequestAndDecodeJSON url method
          (TransportOutcome.response statusCode reason body) =
        Except.error (HelperError.connectionError
          (url ++ " returned a HTTP error: " ++ excString))) ∧
    (∀ statusCode reason body, ¬ (400 ≤ statusCode ∧ statusCode < 600) →
      MakeRequestAndDecodeJSON url method
        (TransportOutcome.response statusCode reason body) = Except.ok body) ∧
    (∀ outcome e, MakeRequestAndDecodeJSON url method outcome = Except.error e →
      ∃ message, e = HelperError.connectionError message) := by
  have hmem : strUpper method ∈ (["GET", "POST"] : List String) := by
    rcases hm with hg | hg <;> rw [hg] <;> decide
  have hneg : ¬ strUpper method ∉ (["GET", "POST"] : List String) := fun hn => hn hmem
  refine ⟨?_, ?_, ?_, ?_⟩
  · intro excString
    rw [MakeRequestAndDecodeJSON, if_neg hneg]
  · intro statusCode reason body h4 h6
    by_cases h5 : statusCode < 500
    · refine ⟨toString statusCode ++ " Client Error: " ++ reason ++ " for url: "
        ++ url, ?_⟩
      have hr : raiseForStatusMessage statusCode reason url =
          some (toString statusCode ++ " Client Error: " ++ reason ++ " for url: "
            ++ url) := by
        rw [raiseForStatusMessage, if_pos ⟨h4, h5⟩]
      rw [MakeRequestAndDecodeJSON, if_neg hneg, hr]
    · refine ⟨toString statusCode ++ " Server Error: " ++ reason ++ " for url: "
        ++ url, ?_⟩
      have h45 : ¬ (400 ≤ statusCode ∧ statusCode < 500) := fun hc => h5 hc.2
      have hr : raiseForStatusMessage statusCode reason url =
          some (toString statusCode ++ " Server Error: " ++ reason ++ " for url: "
            ++ url) := by
        rw [raiseForStatusMessage, if_neg h45, if_pos ⟨Nat.le_of_not_lt h5, h6⟩]
      rw [MakeRequestAndDecodeJSON, if_neg hneg, hr]
  · intro statusCode reason body hout
    have h45 : ¬ (400 ≤ statusCode ∧ statusCode < 500) := by
      intro hc; exact hout ⟨hc.1, Nat.lt_of_lt_of_le hc.2 (by decide)⟩
    have h56 : ¬ (500 ≤ statusCode ∧ statusCode < 600) := by
      intro hc; exact hout ⟨Nat.le_trans (by decide) hc.1, hc.2⟩
    have hr : raiseForStatusMessage statusCode reason url = none := by
      rw [raiseForStatusMessage, if_neg h45, if_neg h56]
    rw [MakeRequestAndDecodeJSON, if_neg hneg, hr]
  · intro outcome e he
    cases outcome with
    | connError excString =>
        rw [MakeRequestAndDecodeJSON, if_neg hneg] at he
        simp only [Except.error.injEq] at he
        exact ⟨_, he.symm⟩
    | response statusCode reason body =>
        cases hr : raiseForStatusMessage statusCode reason url with
        | none =>
            rw [MakeRequestAndDecodeJSON, if_neg hneg, hr] at he
            simp at he
        | some excString =>
            rw [MakeRequestAndDecodeJSON, if_neg hneg, hr] at he
            simp only [Except.error.injEq] at he
            exact ⟨_, he.symm⟩

/-- Witness for C6 at a concrete input: method "POST" on URL "http://u". -/
theorem C6_connectivity_error_normalization_witness :
    (strUpper "POST" = "GET" ∨ strUpper "POST" = "POST") ∧
    ((∀ excString, MakeRequestAndDecodeJSON "http://u" "POST"
        (TransportOutcome.connError excString) =
      Except.error (HelperError.connectionError
        ("Unable to connect to " ++ "http://u" ++ " with error: " ++ excString))) ∧
    (∀ statusCode reason body, 400 ≤ statusCode → statusCode < 600 →
      ∃ excString, MakeRequestAndDecodeJSON "http://u" "POST"
          (TransportOutcome.response statusCode reason body) =
        Except.error (HelperError.connectionError
          ("http://u" ++ " returned a HTTP error: " ++ excString))) ∧
    (∀ statusCode reason body, ¬ (400 ≤ statusCode ∧ statusCode < 600) →
      MakeRequestAndDecodeJSON "http://u" "POST"
        (TransportOutcome.response statusCode reason body) = Except.ok body) ∧
    (∀ outcome e, MakeRequestAndDecodeJSON "http://u" "POST" outcome =
        Except.error e →
      ∃ message, e = HelperError.connectionError message)) :=
  ⟨by decide, C6_connectivity_error_normalization "http://u" "POST" (by decide)⟩

/-- Counterexample for C7: "get" is a method argument value other than "GET"
and "POST", yet the helper does not fail with `ValueError` — the method is
uppercased before the check. -/
theorem C7_counterexample_lowercase_get :
    ("get" : String) ≠ "GET" ∧ ("get" : String) ≠ "POST" ∧
    MakeRequestAndDecodeJSON "http://api.example.test" "get"
      (TransportOutcome.response 200 "OK" 3) = Except.ok 3 := by
  exact ⟨by decide, by decide, rfl⟩

/-- C7 (amended): for every method value whose uppercased form is neither
"GET" nor "POST", the helper fails with the invalid-method `ValueError`
independently of the transport outcome (so before any request is performed);
for a method uppercasing to GET or POST it never raises that error. -/
theorem C7_invalid_method_value_error (url method : String)
    (outcome : TransportOutcome) :
    (strUpper method ≠ "GET" ∧ strUpper method ≠ "POST" →
      MakeRequestAndDecodeJSON url method outcome =
        Except.error (HelperError.valueError "Method \x7b0:s\x7d is not supported")) ∧
    ((strUpper method = "GET" ∨ strUpper method = "POST") →
      ∀ message, MakeRequestAndDecodeJSON url method outcome ≠
        Except.error (HelperError.valueError message)) := by
  constructor
  · intro hgp
    have hmem : strUpper method ∉ (["GET", "POST"] : List String) := by
      intro hmm
      rcases List.mem_cons.mp hmm with h1 | h1
      · exact hgp.1 h1
      · rcases List.mem_cons.mp h1 with h2 | h2
        · exact hgp.2 h2
        · simp at h2
    rw [MakeRequestAndDecodeJSON.eq_def, if_pos hmem]
  · intro hm message
    have hmem : strUpper method ∈ (["GET", "POST"] : List String) := by
      rcases hm with hg | hg <;> rw [hg] <;> decide
    have hneg : ¬ strUpper method ∉ (["GET", "POST"] : List String) :=
      fun hn => hn hmem
    cases outcome with
    | connError excString =>
        rw [MakeRequestAndDecodeJSON, if_neg hneg]
        simp
    | response statusCode reason body =>
        cases hr : raiseForStatusMessage statusCode reason url with
        | none =>
            rw [MakeRequestAndDecodeJSON, if_neg hneg, hr]
            simp
        | some excString =>
            rw [MakeRequestAndDecodeJSON, if_neg hneg, hr]
            simp

/-- Witness for C7 at a concrete input: method "PUT" fails up front with the
`ValueError`; the valid-method half holds vacuously there. -/
theorem C7_invalid_method_value_error_witness :
    ((strUpper "PUT" ≠ "GET" ∧ strUpper "PUT" ≠ "POST" →
      MakeRequestAndDecodeJSON "http://u" "PUT"
          (TransportOutcome.response 200 "OK" 3) =
        Except.error (HelperError.valueError "Method \x7b0:s\x7d is not supported")) ∧
    ((strUpper "PUT" = "GET" ∨ strUpper "PUT" = "POST") →
      ∀ message, MakeRequestAndDecodeJSON "http://u" "PUT"
          (TransportOutcome.response 200 "OK" 3) ≠
        Except.error (HelperError.valueError message))) :=
  C7_invalid_method_value_error "http://u" "PUT" (TransportOutcome.response 200 "OK" 3)

/-- Order in which `sorted(path_specs_per_labels_counter.items())` returns
the (label, count) pairs: Python's lexicographic tuple comparison — label
first, count as tie-breaker (the labels of a `collections.Counter` are
unique, so the tie-breaker never actually decides). -/
def reportPairLe (a b : String × Nat) : Prop :=
  a.1 < b.1 ∨ (a.1 = b.1 ∧ a.2 ≤ b.2)

instance : DecidableRel reportPairLe := fun a b =>
  inferInstanceAs (Decidable (a.1 < b.1 ∨ (a.1 = b.1 ∧ a.2 ≤ b.2)))

instance : IsTrans (String × Nat) reportPairLe where
  trans := by
    intro a b c hab hbc
    rcases hab with h1 | ⟨h1, h2⟩
    · rcases hbc with h3 | ⟨h3, h4⟩
      · exact Or.inl (lt_trans h1 h3)
      · exact Or.inl (h3 ▸ h1)
    · rcases hbc with h3 | ⟨h3, h4⟩
      · exact Or.inl (h1 ▸ h3)
      · exact Or.inr ⟨h1.trans h3, le_trans h2 h4⟩

instance : IsTotal (String × Nat) reportPairLe where
  total := by
    intro a b
    rcases lt_trichotomy a.1 b.1 with h | h | h
    · exact Or.inl (Or.inl h)
    · rcases Nat.le_total a.2 b.2 with h2 | h2
      · exact Or.inl (Or.inr ⟨h, h2⟩)
      · exact Or.inr (Or.inr ⟨h.symm, h2⟩)
    · exact Or.inr (Or.inl h)

/-- Banner line of the report (line 218). -/
def reportBanner (name : String) : String := name ++ " hash tagging results"

/-- Per-label line of the report (lines 220-222). -/
def reportLabelLine (label : String) (count : Nat) : String :=
  toString count ++ " path specifications tagged with label: " ++ label

/-- The `lines_of_text` list built by `CompileReport` (lines 218-224): the
banner, one line per (label, count) item of the counter in sorted order, and
a trailing empty line.  Python's `sorted` is modelled by insertion sort over
the tuple order; on the unique keys of a counter every sort agrees. -/
def CompileReportLines (name : String) (counter : List (String × Nat)) :
    List String :=
  [reportBanner name] ++
    (List.insertionSort reportPairLe counter).map
      (fun p => reportLabelLine p.1 p.2) ++ [""]

/-- The report text, `'\n'.join(lines_of_text)` (line 225). -/
def CompileReportText (name : String) (counter : List (String × Nat)) : String :=
  String.intercalate "\n" (CompileReportLines name counter)

/-- C8: the report text is the newline join of: first one banner line naming
the plugin, then — for each distinct label, in order sorted by label —
exactly one line `"<count> path specifications tagged with label: <label>"`
carrying that label's count, then a trailing blank line. -/
theorem C8_report_text_structure (name : String) (counter : List (String × Nat))
    (hnd : (counter.map Prod.fst).Nodup) :
    ∃ sortedCounter : List (String × Nat),
      sortedCounter.Perm counter ∧
      List.Sorted (fun a b : String × Nat => a.1 ≤ b.1) sortedCounter ∧
      (sortedCounter.map Prod.fst).Nodup ∧
      CompileReportLines name counter =
        reportBanner name ::
          (sortedCounter.map (fun p => reportLabelLine p.1 p.2) ++ [""]) ∧
      CompileReportText name counter = String.intercalate "\n"
        (reportBanner name ::
          (sortedCounter.map (fun p => reportLabelLine p.1 p.2) ++ [""])) := by
  refine ⟨List.insertionSort reportPairLe counter,
    List.perm_insertionSort reportPairLe counter, ?_, ?_, rfl, rfl⟩
  · refine (List.sorted_insertionSort reportPairLe counter).imp ?_
    intro a b hab
    rcases hab with h | ⟨h, _⟩
    · exact le_of_lt h
    · exact le_of_eq h
  · exact ((List.perm_insertionSort reportPairLe counter).map
      Prod.fst).nodup_iff.mpr hnd

/-- Witness for C8 at a concrete counter with two labels. -/
theorem C8_report_text_structure_witness :
    (([("known-good", 3), ("bad", 1)] : List (String × Nat)).map Prod.fst).Nodup ∧
    (∃ sortedCounter : List (String × Nat),
      sortedCounter.Perm [("known-good", 3), ("bad", 1)] ∧
      List.Sorted (fun a b : String × Nat => a.1 ≤ b.1) sortedCounter ∧
      (sortedCounter.map Prod.fst).Nodup ∧
      CompileReportLines "viper" [("known-good", 3), ("bad", 1)] =
        reportBanner "viper" ::
          (sortedCounter.map (fun p => reportLabelLine p.1 p.2) ++ [""]) ∧
      CompileReportText "viper" [("known-good", 3), ("bad", 1)] =
        String.intercalate "\n"
          (reportBanner "viper" ::
            (sortedCounter.map (fun p => reportLabelLine p.1 p.2) ++ [""]))) :=
  ⟨by decide,
    C8_report_text_structure "viper" [("known-good", 3), ("bad", 1)] (by decide)⟩

end HashTagging
